import Mathlib

/-!
Shallow embedding of the responsive navigation drawer of
src/catalog/src/components/nav-drawer.ts (material-web catalog).

The component state consists of the private field `isCollapsible`
(line 29) together with three process-wide signal cells imported at
lines 12-13: `drawerOpenSignal`, `inertContentSignal` and
`inertSidebarSignal`.  The `render` method (lines 31-94) is a pure
derivation from this state to the rendered configuration (scrim
presence, animation keyframe options, inert attributes); it reads the
signal cells but performs no assignment to any of them, which we make
explicit by having the embedded `render` return the (unchanged) signal
store alongside the derived configuration.  `onScrimClick`
(lines 99-101) assigns `drawerOpenSignal.value = false` and nothing
else.  `firstUpdated` (lines 103-111) classifies the viewport with the
media query `(max-width: 1500px)` and updates `isCollapsible` on every
change notification.
-/

/-- Viewport classification of spec section 4.2: `Collapsible` when the
page is narrow enough that the drawer overlays the content, `Inline`
when the drawer sits beside it. -/
inductive ViewportMode where
  | Collapsible
  | Inline
deriving DecidableEq, Repr, Fintype

/-- Easing identifiers used by the drawer.  Modelled from the spec: the
constants `EASING.EMPHASIZED` and `EASING.EMPHASIZED_ACCELERATE` are
imported at line 8 of nav-drawer.ts from
`@material/web/internal/motion/animation.js`, a file of this repository
that is not under src/; the spec calls them "emphasized" and
"emphasized-accelerate".  The scrim and slot fades use the literal
string "linear" (lines 55 and 77). -/
inductive Easing where
  | emphasized
  | emphasizedAccelerate
  | linear
deriving DecidableEq, Repr, Fintype

/-- The three shared signal cells read by nav-drawer.ts:
`drawerOpenSignal.value`, `inertContentSignal.value` and
`inertSidebarSignal.value` (imported at lines 12-13).  Each is a single
boolean cell with synchronous writes, so a snapshot of the store is a
triple of booleans. -/
structure Signals where
  drawerOpen : Bool
  inertContent : Bool
  inertSidebar : Bool
deriving DecidableEq, Repr, Fintype

/-- Writing a signal cell: `drawerOpenSignal.value = b`.  A signal
write stores the value synchronously; notification of subscribers does
not change any cell. -/
def Signals.setOpen (s : Signals) (b : Bool) : Signals :=
  { s with drawerOpen := b }

/-- The render-ready configuration produced by one pass of
`NavDrawer.render` (lines 31-94): every state-dependent binding that
the template hands to the renderer. -/
structure RenderConfig where
  /-- Line 47: the scrim element is rendered exactly when `showModal`. -/
  showScrim : Bool
  /-- Line 35: `drawerSlideAnimationDuration`, handed to the aside
  animate directive at line 67. -/
  slideDurationMs : Nat
  /-- Line 36: `drawerContentOpacityDuration`, handed to the slot
  animate directive at line 76. -/
  contentOpacityDurationMs : Nat
  /-- Line 37: `scrimOpacityDuration`, handed to the scrim animate
  directive at line 54. -/
  scrimOpacityDurationMs : Nat
  /-- Lines 39-40: `drawerSlideAnimationEasing`, handed to the aside
  animate directive at line 68. -/
  easing : Easing
  /-- Line 43: `data-animation-speed` is the string "long" when
  `showModal` and "short" otherwise; we record the boolean. -/
  animationSpeedLong : Bool
  /-- Line 45: the body carries the class "open" iff the open signal
  is set. -/
  bodyOpen : Bool
  /-- Line 46: the spacer `?inert` binding, read from
  `inertSidebarSignal.value`. -/
  spacerInert : Bool
  /-- Line 63: the aside (the drawer panel itself) `?inert` binding;
  the spec calls this `sidebarInert`. -/
  sidebarInert : Bool
  /-- Line 86: the main-content `?inert` binding; the spec calls this
  `contentInert`. -/
  contentInert : Bool
deriving DecidableEq, Repr

namespace NavDrawer

/-- Line 29: `@state() private isCollapsible = false;` — the value of
the mode field before `firstUpdated` runs. -/
def initIsCollapsible : Bool := false

/-- Lines 31-94: the `render` method.  It computes `showModal`
(line 32), the three durations (lines 35-37), the easing (lines 39-40)
and the template bindings (lines 43-93) from `isCollapsible` and the
current signal values.  It reads `drawerOpenSignal.value`,
`inertSidebarSignal.value` and `inertContentSignal.value` but assigns
to no signal, so the signal store it returns is the one it was given. -/
def render (isCollapsible : Bool) (s : Signals) : RenderConfig × Signals :=
  let showModal := isCollapsible && s.drawerOpen
  let drawerSlideAnimationDuration : Nat := if showModal then 500 else 150
  let drawerContentOpacityDuration : Nat := if showModal then 300 else 150
  let scrimOpacityDuration : Nat := 150
  let drawerSlideAnimationEasing :=
    if showModal then Easing.emphasized else Easing.emphasizedAccelerate
  ({ showScrim := showModal
     slideDurationMs := drawerSlideAnimationDuration
     contentOpacityDurationMs := drawerContentOpacityDuration
     scrimOpacityDurationMs := scrimOpacityDuration
     easing := drawerSlideAnimationEasing
     animationSpeedLong := showModal
     bodyOpen := s.drawerOpen
     spacerInert := s.inertSidebar
     sidebarInert := isCollapsible && !s.drawerOpen
     contentInert := showModal || s.inertContent }, s)

/-- Lines 99-101: `onScrimClick` assigns `drawerOpenSignal.value =
false` and touches nothing else in the signal store. -/
def onScrimClick (s : Signals) : Signals :=
  s.setOpen false

/-- Line 104: the fixed width threshold of the media query
`(max-width: 1500px)` constructed in `firstUpdated`. -/
def thresholdPx : Int := 1500

end NavDrawer

/-- Semantics of the CSS media query `(max-width: T)` evaluated at
viewport width `w`: it matches iff `w ≤ T`.  `window.matchMedia` is the
external viewport-width source of spec section 6; nav-drawer.ts reads
its `matches` flag at lines 105 and 109. -/
def mediaQueryMaxWidthMatches (widthPx thresholdPx : Int) : Bool :=
  widthPx ≤ thresholdPx

/-- The viewport classifier of spec section 4.2 as realised by
`firstUpdated` (lines 103-111): `isCollapsible` is set to the matches
flag of `(max-width: thresholdPx)`, and `Collapsible` is the mode when
`isCollapsible` is true. -/
def classify (widthPx thresholdPx : Int) : ViewportMode :=
  if mediaQueryMaxWidthMatches widthPx thresholdPx then
    ViewportMode.Collapsible
  else
    ViewportMode.Inline

namespace NavDrawer

/-- Lines 103-105: the first measurement — `firstUpdated` queries
`(max-width: 1500px)` and stores the matches flag into
`isCollapsible`. -/
def firstUpdated (widthPx : Int) : Bool :=
  mediaQueryMaxWidthMatches widthPx thresholdPx

end NavDrawer

/-- Full component state: the private `isCollapsible` field together
with the shared signal store. -/
structure DrawerState where
  isCollapsible : Bool
  signals : Signals
deriving DecidableEq, Repr, Fintype

/-- The mode a state is in: `Collapsible` iff the `isCollapsible`
field is set (spec section 3, `ViewportMode`). -/
def DrawerState.mode (st : DrawerState) : ViewportMode :=
  if st.isCollapsible then ViewportMode.Collapsible else ViewportMode.Inline

/-- The discrete events that mutate drawer state (spec section 4.3):
external writes of the open signal, viewport-change notifications (the
listener at lines 108-110 stores `e.matches` into `isCollapsible`),
scrim clicks, and writes of the shared inert cells by other
components. -/
inductive DrawerEvent where
  | setOpen (b : Bool)
  | mediaChange (m : Bool)
  | scrimClick
  | setInertContent (b : Bool)
  | setInertSidebar (b : Bool)
deriving DecidableEq, Repr

/-- One event applied to a drawer state. -/
def DrawerState.step (st : DrawerState) (e : DrawerEvent) : DrawerState :=
  match e with
  | DrawerEvent.setOpen b => { st with signals := st.signals.setOpen b }
  | DrawerEvent.mediaChange m => { st with isCollapsible := m }
  | DrawerEvent.scrimClick =>
      { st with signals := NavDrawer.onScrimClick st.signals }
  | DrawerEvent.setInertContent b =>
      { st with signals := { st.signals with inertContent := b } }
  | DrawerEvent.setInertSidebar b =>
      { st with signals := { st.signals with inertSidebar := b } }

/-- A sequence of events applied in order. -/
def DrawerState.run (st : DrawerState) : List DrawerEvent → DrawerState
  | [] => st
  | e :: es => (st.step e).run es

/-- The duration and easing parameters of one derivation: slide
duration, content-opacity duration and slide easing (lines 35-40). -/
def RenderConfig.durationParams (cfg : RenderConfig) : Nat × Nat × Easing :=
  (cfg.slideDurationMs, cfg.contentOpacityDurationMs, cfg.easing)

/-- The animation parameters the renderer receives for the transition
`prev → next`.  The animate directives capture their keyframe options
from the render pass at the state being entered, so the parameters for
a transition are those derived at `next`; `prev` is an argument so
that the dependence claimed by spec section 4.4 can be stated. -/
def transitionParams (prev next : DrawerState) : Nat × Nat × Easing :=
  ((NavDrawer.render next.isCollapsible next.signals).1).durationParams

/-- Pointwise form of the scrim invariant: the derivation shows the
scrim iff the component is collapsible and the open signal is set
(line 32). -/
theorem render_showScrim_eq (c : Bool) (s : Signals) :
    (NavDrawer.render c s).1.showScrim = (c && s.drawerOpen) := rfl

/-- Claim C1: for every initial state and every sequence of open-signal
writes, mode flips, scrim clicks and inert-cell writes, the
configuration derived immediately afterwards shows the scrim iff the
mode is Collapsible and the open signal is true. -/
theorem C1_showScrim_invariant :
    ∀ (init : DrawerState) (evts : List DrawerEvent),
      ((NavDrawer.render (init.run evts).isCollapsible
          (init.run evts).signals).1.showScrim = true
        ↔ ((init.run evts).mode = ViewportMode.Collapsible
            ∧ (init.run evts).signals.drawerOpen = true)) := by
  intro init evts
  generalize init.run evts = st
  revert st
  decide

/-- Claim C2: the derivation yields exactly two timing profiles — when
modally shown the slide duration is 500 ms, the content-opacity
duration is 300 ms and the easing is emphasized, otherwise 150 ms,
150 ms and emphasized-accelerate — and the scrim fade duration is
always 150 ms. -/
theorem C2_timing_profiles :
    ∀ (c o ic il : Bool),
      ((NavDrawer.render c ⟨o, ic, il⟩).1.durationParams
          = if c && o then (500, 300, Easing.emphasized)
            else (150, 150, Easing.emphasizedAccelerate))
        ∧ (NavDrawer.render c ⟨o, ic, il⟩).1.scrimOpacityDurationMs = 150 := by
  decide

/-- Claim C3: for every mode and every combination of signal values the
derivation sets `sidebarInert` to `Collapsible && !open` (line 63) and
`contentInert` to `showScrim || externalContentInertSignal`
(line 86). -/
theorem C3_inert_outputs :
    ∀ (c o ic il : Bool),
      (NavDrawer.render c ⟨o, ic, il⟩).1.sidebarInert = (c && !o)
        ∧ (NavDrawer.render c ⟨o, ic, il⟩).1.contentInert
            = ((NavDrawer.render c ⟨o, ic, il⟩).1.showScrim || ic) := by
  decide

/-- Claim C4: the classifier is a pure total function of width and
threshold returning Collapsible iff the width is at most the
threshold, the boundary width classifies as Collapsible, the threshold
is the fixed constant 1500 px, and `firstUpdated` stores exactly this
classification. -/
theorem C4_classify_contract :
    ∀ (widthPx thresholdPx : Int),
      (classify widthPx thresholdPx = ViewportMode.Collapsible
          ↔ widthPx ≤ thresholdPx)
        ∧ (classify widthPx thresholdPx = ViewportMode.Inline
            ↔ thresholdPx < widthPx)
        ∧ classify thresholdPx thresholdPx = ViewportMode.Collapsible
        ∧ NavDrawer.thresholdPx = 1500
        ∧ (NavDrawer.firstUpdated widthPx
            = decide (classify widthPx NavDrawer.thresholdPx
                = ViewportMode.Collapsible)) := by
  intro w t
  by_cases h : w ≤ t <;>
    simp [classify, mediaQueryMaxWidthMatches, NavDrawer.firstUpdated,
      NavDrawer.thresholdPx, h] <;>
    omega

/-- Claim C5 counterexample: there is no pair of transitions with the
same next state but different previous states that receive different
duration parameters — the derivation runs on the state being entered
only, so the parameters never depend on the previous state. -/
theorem C5_counterexample :
    ¬ ∃ (next prev₁ prev₂ : DrawerState),
        prev₁ ≠ prev₂
          ∧ transitionParams prev₁ next ≠ transitionParams prev₂ next :=
  fun ⟨_, _, _, _, hne⟩ => hne rfl

/-- Claim C5 amended: the animation parameters are recomputed by every
render pass, but they are a function of the next derived state alone —
any two transitions into the same next state receive identical
parameters, namely the modal profile when the next state is modally
shown and the short profile otherwise. -/
theorem C5_amended_next_state_only :
    ∀ (prev₁ prev₂ next : DrawerState),
      transitionParams prev₁ next = transitionParams prev₂ next
        ∧ transitionParams prev₁ next
            = (if next.isCollapsible && next.signals.drawerOpen then
                (500, 300, Easing.emphasized)
              else (150, 150, Easing.emphasizedAccelerate)) := by
  decide

/-- Claim C6 counterexample: with the drawer collapsible and closed the
derivation computes `sidebarInert = true`, yet the shared
`inertSidebarSignal` cell still holds `false` after the derivation —
`render` never writes the shared inert signals. -/
theorem C6_counterexample :
    (NavDrawer.render true ⟨false, false, false⟩).1.sidebarInert = true
      ∧ ((NavDrawer.render true ⟨false, false, false⟩).2).inertSidebar
          = false := by
  decide

/-- Claim C6 amended: the derivation reads the shared inert signals and
leaves the whole signal store unchanged; the computed `sidebarInert`
and `contentInert` values go only into the rendered configuration (the
inert attribute bindings), never into the shared signal cells. -/
theorem C6_amended_render_writes_no_signal :
    ∀ (c : Bool) (s : Signals),
      (NavDrawer.render c s).2 = s
        ∧ (NavDrawer.render c s).1.sidebarInert = (c && !s.drawerOpen)
        ∧ (NavDrawer.render c s).1.contentInert
            = ((c && s.drawerOpen) || s.inertContent)
        ∧ (NavDrawer.render c s).1.spacerInert = s.inertSidebar := by
  intro c s
  revert c s
  decide

/-- Claim C7: a scrim click sets the open signal to false and mutates
nothing else — the mode field and both inert cells are untouched — and
it is safe in every state: afterwards the derivation always yields
`showScrim = false`. -/
theorem C7_scrim_click_frame :
    ∀ (st : DrawerState),
      (st.step DrawerEvent.scrimClick).isCollapsible = st.isCollapsible
        ∧ (st.step DrawerEvent.scrimClick).signals.drawerOpen = false
        ∧ (st.step DrawerEvent.scrimClick).signals.inertContent
            = st.signals.inertContent
        ∧ (st.step DrawerEvent.scrimClick).signals.inertSidebar
            = st.signals.inertSidebar
        ∧ (NavDrawer.render (st.step DrawerEvent.scrimClick).isCollapsible
            (st.step DrawerEvent.scrimClick).signals).1.showScrim = false := by
  decide

/-- Claim C8: before the first measurement the mode field is false, so
the mode defaults to Inline and the derivation invoked before any
measurement is total and produces `showScrim = false` for every signal
store. -/
theorem C8_initial_mode_inline :
    ∀ (s : Signals),
      NavDrawer.initIsCollapsible = false
        ∧ DrawerState.mode ⟨NavDrawer.initIsCollapsible, s⟩
            = ViewportMode.Inline
        ∧ (NavDrawer.render NavDrawer.initIsCollapsible s).1.showScrim
            = false := by
  decide

/-- Claim C9: writing false to an already-false open signal is a no-op
on the store, and re-deriving afterwards yields exactly the same
`sidebarInert` and `contentInert` as before, in every mode. -/
theorem C9_idempotent_close :
    ∀ (c ic il : Bool),
      Signals.setOpen ⟨false, ic, il⟩ false = (⟨false, ic, il⟩ : Signals)
        ∧ (NavDrawer.render c (Signals.setOpen ⟨false, ic, il⟩ false)).1.sidebarInert
            = (NavDrawer.render c ⟨false, ic, il⟩).1.sidebarInert
        ∧ (NavDrawer.render c (Signals.setOpen ⟨false, ic, il⟩ false)).1.contentInert
            = (NavDrawer.render c ⟨false, ic, il⟩).1.contentInert := by
  decide

/-- Claim C10: the scrim and the drawer panel inert flag are mutually
exclusive — in no state does the derivation both show the scrim and
mark the drawer panel inert, so the modal drawer is never displayed in
an unfocusable state. -/
theorem C10_scrim_panel_not_inert :
    ∀ (c o ic il : Bool),
      ¬ ((NavDrawer.render c ⟨o, ic, il⟩).1.showScrim = true
          ∧ (NavDrawer.render c ⟨o, ic, il⟩).1.sidebarInert = true) := by
  decide
